import Mathlib

/-!
Verification of the CI helper scripts of this repository.

The repository holds three Python scripts:
  * `shared-scripts/check-build-errors.py` — scans build logs / xcresult
    bundles for known error signatures and decides on a remediation tier;
  * `xcode-build-app/scripts/check-build-errors.py` — an older near-duplicate
    of the same scanner;
  * `shared-scripts/show-test-failures.py` — extracts test failures from
    xcresult JSON and prints GitHub error lines and a summary.

Shallow embedding conventions:
  * Python strings are modelled as `List Char` (`Str` below); the Python
    substring test `a in b` is infix containment of character lists.
  * Process-level side effects (handlers that clear caches, write the
    `GITHUB_ENV` flag file and call `sys.exit(0)`) are modelled by the
    `Decision` value the run produces together with explicit functions from
    the environment-file state to the next state and the exit code.
  * `subprocess` / `json` failures are modelled by an outcome datatype with
    one constructor per caught exception class.
-/

/-- Python strings, modelled as lists of characters. -/
abbrev Str := List Char

/-- Python's `needle in haystack` on strings: substring (infix) containment. -/
def py_in (needle haystack : Str) : Bool := decide (needle <:+: haystack)

/-- The three remediation tiers of the scanner, in decreasing priority. -/
inductive RemediationTier where
  | clearDerivedData
  | clearBuildCache
  | retryOnly
deriving DecidableEq, Repr

/-- Outcome of one scanner run: either no signature matched, or a handler for
`tier` fired on the matched `signature` (and the process exited). -/
inductive Decision where
  | noAction
  | remediate (tier : RemediationTier) (signature : Str)
deriving DecidableEq, Repr

/-- Whether a decision fires a remediation/retry handler. -/
def Decision.isRemediate : Decision → Bool
  | .noAction => false
  | .remediate _ _ => true

/-- `set_retry_build` (identical in both check-build-errors scripts): reads
`GITHUB_ENV`; when it is set to a non-empty path, appends the literal text
`RETRY_BUILD=true` to that file; then `sys.exit(0)`.  Modelled as a function
from the env-var value and current flag-file content to the new content and
the process exit code. -/
def set_retry_build (env_file_path : Option Str) (env_file : Str) : Str × Nat :=
  match env_file_path with
  | some p => if p.isEmpty then (env_file, 0) else (env_file ++ ("RETRY_BUILD=true").data, 0)
  | none => (env_file, 0)

/-- Effect of a finished run on the flag file: every remediation handler ends
in `set_retry_build`; the no-match path never touches the file. -/
def decision_flag (d : Decision) (env_file_path : Option Str) (env_file : Str) : Str :=
  match d with
  | .noAction => env_file
  | .remediate _ _ => (set_retry_build env_file_path env_file).1

/-- Python truthiness of the `GITHUB_ENV` value: set and non-empty. -/
def env_configured : Option Str → Bool
  | some s => !s.isEmpty
  | none => false

namespace Shared

/-! ### `shared-scripts/check-build-errors.py` -/

/-- `retry_errors`: signatures that only require a plain retry. -/
def retry_errors : List Str :=
  [("The Xcode build system has crashed").data,
   ("Command CodeSign failed with a nonzero exit code").data,
   ("The test runner failed to initialize for UI testing").data,
   ("Segmentation fault").data,
   ("error: stat").data]

/-- `clear_derived_data_errors`: signatures that require clearing derived data. -/
def clear_derived_data_errors : List Str :=
  [("ld: symbol(s) not found").data]

/-- `clear_tuist_cache_errors`: signatures that require clearing the tuist cache. -/
def clear_tuist_cache_errors : List Str :=
  [("Underlying Error: Crash").data,
   ("Failed to load the test bundle").data]

/-- `process_errors`: for each error message in order, check the derived-data
signatures, then the tuist-cache signatures, then the plain-retry signatures;
the first signature (in list order) contained in the message fires its handler,
which exits the process — so the whole scan short-circuits on the first match. -/
def process_errors : List Str → Decision
  | [] => .noAction
  | msg :: rest =>
    match clear_derived_data_errors.find? (fun e => py_in e msg) with
    | some e => .remediate .clearDerivedData e
    | none =>
      match clear_tuist_cache_errors.find? (fun e => py_in e msg) with
      | some e => .remediate .clearBuildCache e
      | none =>
        match retry_errors.find? (fun e => py_in e msg) with
        | some e => .remediate .retryOnly e
        | none => process_errors rest

/-- Statement-side helper: does any signature of any tier occur in `m`? -/
def matches_any (m : Str) : Bool :=
  (clear_derived_data_errors ++ clear_tuist_cache_errors ++ retry_errors).any
    (fun e => py_in e m)

/-- Outcome of running `xcrun xcresulttool` on one xcresult bundle in
`get_xcresult_errors`.  `callFailed` is `subprocess.CalledProcessError`
(non-zero exit, raised because of `check=True`); `badJson` is
`json.JSONDecodeError` from `json.loads`.  On success the JSON either lacks
`issues.errorSummaries` (`ok none`) or holds a `_values` list of summaries,
each with or without a `message._value` string. -/
inductive XcresultOutcome where
  | callFailed
  | badJson
  | ok (errorSummaries : Option (List (Option Str)))
deriving DecidableEq, Repr

/-- `get_xcresult_errors`: collect `message._value` of every error summary;
both caught exception classes degrade to an empty error list. -/
def get_xcresult_errors : XcresultOutcome → List Str
  | .callFailed => []
  | .badJson => []
  | .ok none => []
  | .ok (some summaries) => summaries.filterMap (fun s => s)

/-- One entry of the `log` directory, as the module main block dispatches on
the file-name suffix: a `.log` text file, an `.xcresult` bundle, or anything
else (skipped). -/
inductive DirEntry where
  | logFile (contents : Str)
  | xcresultFile (outcome : XcresultOutcome)
  | otherFile
deriving DecidableEq, Repr

/-- Python iterates a string character by character; the module main block
passes the raw log text (a string, not a list) to `process_errors`, so each
"error message" that function sees is a one-character string. -/
def py_str_iter (s : Str) : List Str := s.map (fun c => [c])

/-- Decision contributed by one directory entry of the module main block. -/
def scan_file : DirEntry → Decision
  | .logFile contents => process_errors (py_str_iter contents)
  | .xcresultFile outcome => process_errors (get_xcresult_errors outcome)
  | .otherFile => .noAction

/-- The module main loop over the `log` directory listing: a handler fired by
one file exits the process; otherwise scanning continues with the next file. -/
def scan_dir : List DirEntry → Decision
  | [] => .noAction
  | e :: rest =>
    match scan_file e with
    | .noAction => scan_dir rest
    | d => d

/-- Observable outcome of one invocation of the script. -/
structure RunResult where
  exitCode : Nat
  printedMissingDiag : Bool
  decision : Decision
deriving DecidableEq, Repr

/-- The module main block: if the `log` directory is absent, print the
diagnostic and fall through (exit 0, nothing scanned); otherwise scan the
directory listing.  Every handler exits with code 0, and the fall-through
paths also end the process with code 0. -/
def run (log_dir : Option (List DirEntry)) : RunResult :=
  match log_dir with
  | none => ⟨0, true, .noAction⟩
  | some entries => ⟨0, false, scan_dir entries⟩

end Shared

namespace XcodeApp

/-! ### `xcode-build-app/scripts/check-build-errors.py` -/

/-- `retry_errors` of the older variant (same five signatures). -/
def retry_errors : List Str :=
  [("The Xcode build system has crashed").data,
   ("Command CodeSign failed with a nonzero exit code").data,
   ("The test runner failed to initialize for UI testing").data,
   ("Segmentation fault").data,
   ("error: stat").data]

/-- `clear_derived_data_errors` of the older variant. -/
def clear_derived_data_errors : List Str :=
  [("ld: symbol(s) not found").data]

/-- `clear_tuist_cache_errors` of the older variant (one signature only). -/
def clear_tuist_cache_errors : List Str :=
  [("Underlying Error: Crash").data]

/-- Body of the per-file check in the module main loop: derived-data
signatures, then tuist-cache signatures, then plain-retry signatures, against
the whole file contents; the first match fires its handler, which exits. -/
def check_contents (contents : Str) : Decision :=
  match clear_derived_data_errors.find? (fun e => py_in e contents) with
  | some e => .remediate .clearDerivedData e
  | none =>
    match clear_tuist_cache_errors.find? (fun e => py_in e contents) with
    | some e => .remediate .clearBuildCache e
    | none =>
      match retry_errors.find? (fun e => py_in e contents) with
      | some e => .remediate .retryOnly e
      | none => .noAction

/-- Statement-side helper: does any signature of any tier of this variant
occur in `m`? -/
def matches_any (m : Str) : Bool :=
  (clear_derived_data_errors ++ clear_tuist_cache_errors ++ retry_errors).any
    (fun e => py_in e m)

/-- The module main loop: every directory entry whose file NAME contains
`".log"` as a substring is opened and checked; other entries are skipped. -/
def scan_files : List (Str × Str) → Decision
  | [] => .noAction
  | (file_name, contents) :: rest =>
    if py_in ((".log").data) file_name then
      match check_contents contents with
      | .noAction => scan_files rest
      | d => d
    else scan_files rest

/-- Uncaught Python exceptions this variant can die with. -/
inductive PyErr where
  | fileNotFoundError
deriving DecidableEq, Repr

/-- Observable outcome of one invocation of the older variant. -/
structure RunResult where
  exitCode : Nat
  decision : Decision
deriving DecidableEq, Repr

/-- Module top level of the older variant: `os.listdir("log")` is called with
no existence check, so an absent `log` directory raises an uncaught
`FileNotFoundError`; otherwise the listing is scanned and every path exits
with code 0. -/
def run (log_dir : Option (List (Str × Str))) : Except PyErr RunResult :=
  match log_dir with
  | none => .error .fileNotFoundError
  | some entries => .ok ⟨0, scan_files entries⟩

end XcodeApp

namespace STF

/-! ### `shared-scripts/show-test-failures.py` -/

/-- `MAX_MESSAGE_LENGTH` -/
def MAX_MESSAGE_LENGTH : Nat := 500

/-- `truncate_message`: messages within the cap are returned unchanged; longer
ones are cut to `max_length - 3` characters plus the three-dot marker. -/
def truncate_message (message : Str) : Str :=
  if message.length ≤ MAX_MESSAGE_LENGTH then message
  else message.take (MAX_MESSAGE_LENGTH - 3) ++ ('.' :: '.' :: '.' :: [])

/-- One node of the xcresult test tree: `nodeType`, `name`, `result`,
optional `details`, and child nodes.  `result` is read by the script but
never used. -/
inductive TestNode where
  | mk (nodeType nodeName nodeResult : Str) (details : Option Str)
      (children : List TestNode)

/-- One entry of the `devices` array of the tool output. -/
structure DeviceEntry where
  deviceId : Option Str
  deviceName : Option Str
  osVersion : Option Str
deriving DecidableEq, Repr

/-- The parsed JSON of `xcresulttool get test-results tests`: the `devices`
array and the `testNodes` array (each defaulting to empty when absent). -/
structure TestResults where
  devices : List DeviceEntry
  testNodes : List TestNode

/-- Outcome of the `xcresulttool` invocation in `get_test_results`:
`callFailed` is `subprocess.CalledProcessError`, `timedOut` is
`subprocess.TimeoutExpired` (a 60-second timeout is set), `badJson` is
`json.JSONDecodeError`. -/
inductive ToolOutcome where
  | callFailed
  | timedOut
  | badJson
  | ok (data : TestResults)

/-- `get_test_results`: each of the three caught exception classes is logged
as a warning and degrades to `None`. -/
def get_test_results : ToolOutcome → Option TestResults
  | .ok data => some data
  | .callFailed => none
  | .timedOut => none
  | .badJson => none

/-- One failure record produced by `extract_failures`. -/
structure Failure where
  path : List Str
  message : Str
  device : Option Str
deriving DecidableEq, Repr

mutual

/-- `extract_failures`: depth-first walk of the test-node tree.  A `Device`
node updates the device context for its subtree; bundle/suite/case node types
extend the hierarchical path; a `Failure Message` node emits one record
(message = `details`, falling back to the node name) provided the current
path is non-empty; then the walk recurses into the children. -/
def extract_failures (node : TestNode) (path : List Str) (device_name : Option Str) :
    List Failure :=
  match node with
  | .mk node_type node_name _ details children =>
    let current_device := if node_type = ("Device").data then some node_name else device_name
    let current_path :=
      if node_type ∈ [("Unit test bundle").data, ("UI test bundle").data,
          ("Test Suite").data, ("Test Case").data] then path ++ [node_name]
      else path
    let here :=
      if node_type = ("Failure Message").data ∧ current_path ≠ [] then
        [⟨current_path, details.getD node_name, current_device⟩]
      else []
    here ++ extract_failures_list children current_path current_device

/-- The `for child in children` recursion of `extract_failures`, in order. -/
def extract_failures_list (nodes : List TestNode) (path : List Str)
    (device_name : Option Str) : List Failure :=
  match nodes with
  | [] => []
  | n :: rest =>
    extract_failures n path device_name ++ extract_failures_list rest path device_name

end

/-- Assoc-list model of a Python dict: a later set shadows earlier entries. -/
def dict_set (m : List (Str × Str)) (k v : Str) : List (Str × Str) :=
  (k, v) :: m.filter (fun p => decide (p.1 ≠ k))

/-- Dict lookup. -/
def dict_get? (m : List (Str × Str)) (k : Str) : Option Str :=
  (m.find? (fun p => decide (p.1 = k))).map (fun p => p.2)

/-- `build_device_map`: map each device with a truthy `deviceId` to
`deviceName (osVersion)`, or just `deviceName` when the version is falsy;
`deviceName` defaults to `Unknown Device`. -/
def build_device_map (data : TestResults) : List (Str × Str) :=
  data.devices.foldl
    (fun m device =>
      match device.deviceId with
      | none => m
      | some id =>
        if id.isEmpty then m
        else
          let device_name := device.deviceName.getD (("Unknown Device").data)
          let os_version := device.osVersion.getD []
          if os_version.isEmpty then dict_set m id device_name
          else dict_set m id (device_name ++ (" (").data ++ os_version ++ (")").data))
    []

/-- The device-resolution loop at the end of `process_xcresult`: a failure
whose device value is truthy and is a key of the device map is rewritten to
the mapped display name. -/
def resolve_device (device_map : List (Str × Str)) (f : Failure) : Failure :=
  match f.device with
  | none => f
  | some d =>
    if d.isEmpty then f
    else
      match dict_get? device_map d with
      | some resolved => { f with device := some resolved }
      | none => f

/-- `process_xcresult`: tool failure (falsy data) yields no failures;
otherwise extract failures from every top-level test node and resolve the
device names. -/
def process_xcresult (outcome : ToolOutcome) : List Failure :=
  match get_test_results outcome with
  | none => []
  | some data =>
    let device_map := build_device_map data
    let failures := data.testNodes.flatMap (fun n => extract_failures n [] none)
    failures.map (resolve_device device_map)

/-- `format_test_identifier`: `"/".join(path)`. -/
def format_test_identifier (path : List Str) : Str :=
  List.intercalate ('/' :: []) path

/-- Python `s.replace(pat, repl)` for a one-character pattern (the only form
the script uses): every occurrence of the character is replaced. -/
def py_replace (s : Str) (pat : Char) (repl : Str) : Str :=
  s.flatMap (fun c => if c = pat then repl else [c])

/-- The escaping chain applied to the message of a GitHub error line:
`%`→`%25`, then carriage return→`%0D`, then line feed→`%0A`. -/
def escape_message (s : Str) : Str :=
  py_replace (py_replace (py_replace s '%' (("%25").data)) '\r' (("%0D").data))
    '\n' (("%0A").data)

/-- The message part of the error line before escaping: the truncated failure
message, prefixed with `[device] ` when the failure has a truthy device. -/
def device_prefixed_message (f : Failure) : Str :=
  let message := truncate_message f.message
  match f.device with
  | none => message
  | some d =>
    if d.isEmpty then message
    else ('[' :: []) ++ d ++ (']' :: ' ' :: []) ++ message

/-- The full line printed for one failure:
`::error title=<joined path>::<escaped, device-prefixed message>`. -/
def gha_error_line (f : Failure) : Str :=
  ("::error title=").data ++ format_test_identifier f.path ++ (':' :: ':' :: []) ++
    escape_message (device_prefixed_message f)

/-- Spec-side per-character escape, modelled from the spec: each character of
the original message is escaped independently and exactly once
(`%`→`%25`, CR→`%0D`, LF→`%0A`, all others unchanged). -/
def esc_char (c : Char) : Str :=
  if c = '%' then ('%' :: '2' :: '5' :: [])
  else if c = '\r' then ('%' :: '0' :: 'D' :: [])
  else if c = '\n' then ('%' :: '0' :: 'A' :: [])
  else [c]

end STF

/-! ### Helper lemmas about the signature search -/

theorem find?_eq_none_of_all_false {l : List Str} {m : Str}
    (h : ∀ e ∈ l, py_in e m = false) :
    l.find? (fun e => py_in e m) = none := by
  rw [List.find?_eq_none]
  intro x hx
  simp [h x hx]

theorem find?_some_of_exists {l : List Str} {m : Str}
    (h : ∃ e ∈ l, py_in e m = true) :
    ∃ e, l.find? (fun e => py_in e m) = some e ∧ e ∈ l ∧ py_in e m = true := by
  have hs : (l.find? (fun e => py_in e m)).isSome := List.find?_isSome.mpr h
  obtain ⟨e, he⟩ := Option.isSome_iff_exists.mp hs
  have hpy := List.find?_some he
  exact ⟨e, he, List.mem_of_find?_eq_some he, by simpa using hpy⟩

theorem matches_any_false_parts {m : Str} (h : Shared.matches_any m = false) :
    Shared.clear_derived_data_errors.find? (fun e => py_in e m) = none ∧
    Shared.clear_tuist_cache_errors.find? (fun e => py_in e m) = none ∧
    Shared.retry_errors.find? (fun e => py_in e m) = none := by
  rw [Shared.matches_any, List.any_eq_false] at h
  refine ⟨?_, ?_, ?_⟩ <;> refine find?_eq_none_of_all_false (fun x hx => ?_) <;>
    have hm := h x (by simp [hx]) <;> simpa using hm

theorem process_errors_cons_of_no_match {m : Str} (msgs : List Str)
    (h : Shared.matches_any m = false) :
    Shared.process_errors (m :: msgs) = Shared.process_errors msgs := by
  obtain ⟨h1, h2, h3⟩ := matches_any_false_parts h
  simp [Shared.process_errors, h1, h2, h3]

theorem process_errors_append_of_no_match (pre : List Str) (msgs : List Str)
    (h : ∀ m ∈ pre, Shared.matches_any m = false) :
    Shared.process_errors (pre ++ msgs) = Shared.process_errors msgs := by
  induction pre with
  | nil => rfl
  | cons m rest ih =>
    rw [List.cons_append, process_errors_cons_of_no_match _ (h m (by simp))]
    exact ih (fun x hx => h x (by simp [hx]))

theorem xcodeapp_matches_any_false_parts {m : Str} (h : XcodeApp.matches_any m = false) :
    XcodeApp.clear_derived_data_errors.find? (fun e => py_in e m) = none ∧
    XcodeApp.clear_tuist_cache_errors.find? (fun e => py_in e m) = none ∧
    XcodeApp.retry_errors.find? (fun e => py_in e m) = none := by
  rw [XcodeApp.matches_any, List.any_eq_false] at h
  refine ⟨?_, ?_, ?_⟩ <;> refine find?_eq_none_of_all_false (fun x hx => ?_) <;>
    have hm := h x (by simp [hx]) <;> simpa using hm

theorem check_contents_of_no_match {ct : Str} (h : XcodeApp.matches_any ct = false) :
    XcodeApp.check_contents ct = Decision.noAction := by
  obtain ⟨h1, h2, h3⟩ := xcodeapp_matches_any_false_parts h
  simp [XcodeApp.check_contents, h1, h2, h3]

theorem scan_files_of_no_match (entries : List (Str × Str))
    (h : ∀ pr ∈ entries, XcodeApp.matches_any pr.2 = false) :
    XcodeApp.scan_files entries = Decision.noAction := by
  induction entries with
  | nil => rfl
  | cons pr rest ih =>
    obtain ⟨nm, ct⟩ := pr
    have hcc : XcodeApp.check_contents ct = Decision.noAction :=
      check_contents_of_no_match (h (nm, ct) (by simp))
    have hrest := ih (fun x hx => h x (by simp [hx]))
    by_cases hlog : py_in ((".log").data) nm = true
    · simp [XcodeApp.scan_files, hlog, hcc, hrest]
    · simp [XcodeApp.scan_files, hlog, hrest]

/-! ### Claim C1 -/

/-- C1, counterexample: in the artifact sequence
`["Build step: Segmentation fault", "Link step: ld: symbol(s) not found"]` both a
RetryOnly signature (earlier artifact) and a ClearDerivedData signature (later
artifact) occur, yet the scanner fires the RetryOnly handler of the first
matching artifact and never returns a ClearDerivedData decision: priority does
not beat artifact discovery order. -/
theorem c1_counterexample :
    Shared.process_errors
        [("Build step: Segmentation fault").data,
         ("Link step: ld: symbol(s) not found").data] =
      Decision.remediate RemediationTier.retryOnly ("Segmentation fault").data ∧
    ¬ ∃ s, Shared.process_errors
        [("Build step: Segmentation fault").data,
         ("Link step: ld: symbol(s) not found").data] =
      Decision.remediate RemediationTier.clearDerivedData s := by
  have h1 : Shared.process_errors
      [("Build step: Segmentation fault").data,
       ("Link step: ld: symbol(s) not found").data] =
      Decision.remediate RemediationTier.retryOnly ("Segmentation fault").data := by
    decide
  refine ⟨h1, ?_⟩
  rintro ⟨s, hs⟩
  rw [h1] at hs
  injection hs with ht _
  exact RemediationTier.noConfusion ht

/-- C1, amended: tier priority beats signature position only within a single
artifact.  If no artifact before `msg` contains any signature and `msg`
contains a ClearDerivedData signature, the decision is
`Remediate(ClearDerivedData, …)` — even when `msg` also contains RetryOnly
signatures, wherever they occur in its text. -/
theorem c1_tier_priority_within_artifact (pre : List Str) (msg : Str) (rest : List Str)
    (hpre : ∀ m ∈ pre, Shared.matches_any m = false)
    (hdd : ∃ e ∈ Shared.clear_derived_data_errors, py_in e msg = true) :
    ∃ e ∈ Shared.clear_derived_data_errors,
      Shared.process_errors (pre ++ msg :: rest) =
        Decision.remediate RemediationTier.clearDerivedData e := by
  rw [process_errors_append_of_no_match pre (msg :: rest) hpre]
  obtain ⟨e, hfind, hmem, _⟩ := find?_some_of_exists hdd
  exact ⟨e, hmem, by simp [Shared.process_errors, hfind]⟩

/-- Witness of C1 (amended): a clean first artifact, then an artifact whose
text has a RetryOnly signature before a ClearDerivedData signature; the
handler fired is still ClearDerivedData. -/
theorem c1_tier_priority_within_artifact_witness :
    ((∀ m ∈ [("Compiling sources").data], Shared.matches_any m = false) ∧
     (∃ e ∈ Shared.clear_derived_data_errors,
        py_in e ("Segmentation fault then ld: symbol(s) not found").data = true)) ∧
    ∃ e ∈ Shared.clear_derived_data_errors,
      Shared.process_errors
          ([("Compiling sources").data] ++
            ("Segmentation fault then ld: symbol(s) not found").data :: []) =
        Decision.remediate RemediationTier.clearDerivedData e :=
  ⟨⟨by decide, by decide⟩,
   c1_tier_priority_within_artifact _ _ _ (by decide) (by decide)⟩

/-! ### Claim C2 -/

/-- C2: for a single artifact the three signature sets are consulted in the
fixed order ClearDerivedData, then ClearBuildCache (tuist cache), then
RetryOnly, and the first set containing a matching signature decides — the
higher-priority clauses need no assumption about the lower-priority sets, so
their contents never affect a higher-priority match.  This holds both for the
shared-scripts scanner and for the xcode-build-app variant. -/
theorem c2_fixed_tier_order (msg : Str) (rest : List Str) :
    ((∃ e ∈ Shared.clear_derived_data_errors, py_in e msg = true) →
      ∃ e, e ∈ Shared.clear_derived_data_errors ∧ py_in e msg = true ∧
        Shared.process_errors (msg :: rest) =
          Decision.remediate RemediationTier.clearDerivedData e) ∧
    ((∀ e ∈ Shared.clear_derived_data_errors, py_in e msg = false) →
      (∃ e ∈ Shared.clear_tuist_cache_errors, py_in e msg = true) →
      ∃ e, e ∈ Shared.clear_tuist_cache_errors ∧ py_in e msg = true ∧
        Shared.process_errors (msg :: rest) =
          Decision.remediate RemediationTier.clearBuildCache e) ∧
    ((∀ e ∈ Shared.clear_derived_data_errors, py_in e msg = false) →
      (∀ e ∈ Shared.clear_tuist_cache_errors, py_in e msg = false) →
      (∃ e ∈ Shared.retry_errors, py_in e msg = true) →
      ∃ e, e ∈ Shared.retry_errors ∧ py_in e msg = true ∧
        Shared.process_errors (msg :: rest) =
          Decision.remediate RemediationTier.retryOnly e) ∧
    ((∃ e ∈ XcodeApp.clear_derived_data_errors, py_in e msg = true) →
      ∃ e, e ∈ XcodeApp.clear_derived_data_errors ∧ py_in e msg = true ∧
        XcodeApp.check_contents msg =
          Decision.remediate RemediationTier.clearDerivedData e) ∧
    ((∀ e ∈ XcodeApp.clear_derived_data_errors, py_in e msg = false) →
      (∃ e ∈ XcodeApp.clear_tuist_cache_errors, py_in e msg = true) →
      ∃ e, e ∈ XcodeApp.clear_tuist_cache_errors ∧ py_in e msg = true ∧
        XcodeApp.check_contents msg =
          Decision.remediate RemediationTier.clearBuildCache e) ∧
    ((∀ e ∈ XcodeApp.clear_derived_data_errors, py_in e msg = false) →
      (∀ e ∈ XcodeApp.clear_tuist_cache_errors, py_in e msg = false) →
      (∃ e ∈ XcodeApp.retry_errors, py_in e msg = true) →
      ∃ e, e ∈ XcodeApp.retry_errors ∧ py_in e msg = true ∧
        XcodeApp.check_contents msg =
          Decision.remediate RemediationTier.retryOnly e) := by
  refine ⟨?_, ?_, ?_, ?_, ?_, ?_⟩
  · intro hdd
    obtain ⟨e, hfind, hmem, hpy⟩ := find?_some_of_exists hdd
    exact ⟨e, hmem, hpy, by simp [Shared.process_errors, hfind]⟩
  · intro hdd htc
    have h1 := find?_eq_none_of_all_false hdd
    obtain ⟨e, hfind, hmem, hpy⟩ := find?_some_of_exists htc
    exact ⟨e, hmem, hpy, by simp [Shared.process_errors, h1, hfind]⟩
  · intro hdd htc hr
    have h1 := find?_eq_none_of_all_false hdd
    have h2 := find?_eq_none_of_all_false htc
    obtain ⟨e, hfind, hmem, hpy⟩ := find?_some_of_exists hr
    exact ⟨e, hmem, hpy, by simp [Shared.process_errors, h1, h2, hfind]⟩
  · intro hdd
    obtain ⟨e, hfind, hmem, hpy⟩ := find?_some_of_exists hdd
    exact ⟨e, hmem, hpy, by simp [XcodeApp.check_contents, hfind]⟩
  · intro hdd htc
    have h1 := find?_eq_none_of_all_false hdd
    obtain ⟨e, hfind, hmem, hpy⟩ := find?_some_of_exists htc
    exact ⟨e, hmem, hpy, by simp [XcodeApp.check_contents, h1, hfind]⟩
  · intro hdd htc hr
    have h1 := find?_eq_none_of_all_false hdd
    have h2 := find?_eq_none_of_all_false htc
    obtain ⟨e, hfind, hmem, hpy⟩ := find?_some_of_exists hr
    exact ⟨e, hmem, hpy, by simp [XcodeApp.check_contents, h1, h2, hfind]⟩

/-- Witness of C2: an artifact holding a tuist-cache signature and a RetryOnly
signature but no ClearDerivedData signature is decided as ClearBuildCache. -/
theorem c2_fixed_tier_order_witness :
    ((∀ e ∈ Shared.clear_derived_data_errors,
        py_in e ("Underlying Error: Crash and Segmentation fault").data = false) ∧
     (∃ e ∈ Shared.clear_tuist_cache_errors,
        py_in e ("Underlying Error: Crash and Segmentation fault").data = true)) ∧
    ∃ e, e ∈ Shared.clear_tuist_cache_errors ∧
      py_in e ("Underlying Error: Crash and Segmentation fault").data = true ∧
      Shared.process_errors [("Underlying Error: Crash and Segmentation fault").data] =
        Decision.remediate RemediationTier.clearBuildCache e :=
  ⟨⟨by decide, by decide⟩,
   (c2_fixed_tier_order ("Underlying Error: Crash and Segmentation fault").data []).2.1
     (by decide) (by decide)⟩

/-! ### Claim C3 -/

/-- C3: when no artifact contains any signature of any tier, the scan returns
`NoAction`: no handler fires and the flag file is left exactly as it was —
for the shared-scripts scanner and for the xcode-build-app main loop alike. -/
theorem c3_no_signature_no_action (msgs : List Str) (entries : List (Str × Str))
    (p : Option Str) (c : Str) :
    ((∀ m ∈ msgs, Shared.matches_any m = false) →
      Shared.process_errors msgs = Decision.noAction ∧
      decision_flag (Shared.process_errors msgs) p c = c) ∧
    ((∀ pr ∈ entries, XcodeApp.matches_any pr.2 = false) →
      XcodeApp.scan_files entries = Decision.noAction ∧
      decision_flag (XcodeApp.scan_files entries) p c = c) := by
  constructor
  · intro h
    have hp : Shared.process_errors msgs = Decision.noAction := by
      have happ := process_errors_append_of_no_match msgs [] h
      simpa using happ
    exact ⟨hp, by rw [hp]; rfl⟩
  · intro h
    have hp := scan_files_of_no_match entries h
    exact ⟨hp, by rw [hp]; rfl⟩

/-- Witness of C3: an artifact with no known signature yields `NoAction` and
an untouched flag file, in both variants. -/
theorem c3_no_signature_no_action_witness :
    ((∀ m ∈ [("All tests passed").data], Shared.matches_any m = false) ∧
     (∀ pr ∈ [((("build.log").data : Str), (("All tests passed").data : Str))],
        XcodeApp.matches_any pr.2 = false)) ∧
    ((Shared.process_errors [("All tests passed").data] = Decision.noAction ∧
      decision_flag (Shared.process_errors [("All tests passed").data])
        (some ("/tmp/github-env").data) ("OLD=1").data = ("OLD=1").data) ∧
     (XcodeApp.scan_files [((("build.log").data : Str), (("All tests passed").data : Str))] =
        Decision.noAction ∧
      decision_flag
        (XcodeApp.scan_files
          [((("build.log").data : Str), (("All tests passed").data : Str))])
        (some ("/tmp/github-env").data) ("OLD=1").data = ("OLD=1").data)) :=
  ⟨⟨by decide, by decide⟩,
   (c3_no_signature_no_action [("All tests passed").data]
      [((("build.log").data : Str), (("All tests passed").data : Str))]
      (some ("/tmp/github-env").data) ("OLD=1").data).1 (by decide),
   (c3_no_signature_no_action [("All tests passed").data]
      [((("build.log").data : Str), (("All tests passed").data : Str))]
      (some ("/tmp/github-env").data) ("OLD=1").data).2 (by decide)⟩

/-! ### Claim C4 -/

theorem scan_dir_append_of_noAction {e : Shared.DirEntry} (pre post : List Shared.DirEntry)
    (h : Shared.scan_file e = Decision.noAction) :
    Shared.scan_dir (pre ++ e :: post) = Shared.scan_dir (pre ++ post) := by
  induction pre with
  | nil => simp [Shared.scan_dir, h]
  | cons a pre ih =>
    rw [List.cons_append, List.cons_append]
    cases ha : Shared.scan_file a <;> simp [Shared.scan_dir, ha, ih]

/-- C4: a failing structured extraction (tool non-zero exit, timeout where one
is set, or malformed JSON) contributes an empty error list / no data; the
directory scan over the remaining artifacts is unchanged and the run still
ends with exit code 0 instead of aborting. -/
theorem c4_extraction_failure_is_empty_and_skipped (pre post : List Shared.DirEntry) :
    (Shared.get_xcresult_errors Shared.XcresultOutcome.callFailed = [] ∧
     Shared.get_xcresult_errors Shared.XcresultOutcome.badJson = []) ∧
    (Shared.scan_dir
        (pre ++ Shared.DirEntry.xcresultFile Shared.XcresultOutcome.callFailed :: post) =
      Shared.scan_dir (pre ++ post) ∧
     Shared.scan_dir
        (pre ++ Shared.DirEntry.xcresultFile Shared.XcresultOutcome.badJson :: post) =
      Shared.scan_dir (pre ++ post)) ∧
    (Shared.run (some
        (pre ++ Shared.DirEntry.xcresultFile Shared.XcresultOutcome.callFailed :: post))).exitCode
      = 0 ∧
    (STF.get_test_results STF.ToolOutcome.callFailed = none ∧
     STF.get_test_results STF.ToolOutcome.timedOut = none ∧
     STF.get_test_results STF.ToolOutcome.badJson = none) ∧
    (STF.process_xcresult STF.ToolOutcome.callFailed = [] ∧
     STF.process_xcresult STF.ToolOutcome.timedOut = [] ∧
     STF.process_xcresult STF.ToolOutcome.badJson = []) := by
  refine ⟨⟨rfl, rfl⟩, ⟨?_, ?_⟩, rfl, ⟨rfl, rfl, rfl⟩, ⟨rfl, rfl, rfl⟩⟩
  · exact scan_dir_append_of_noAction pre post rfl
  · exact scan_dir_append_of_noAction pre post rfl

/-! ### Claim C5 -/

/-- C5, counterexample: the xcode-build-app variant calls `os.listdir("log")`
with no existence check, so with the `log` directory absent the script dies
with an uncaught `FileNotFoundError` — it neither prints a diagnostic nor
exits 0. -/
theorem c5_counterexample :
    XcodeApp.run none = Except.error XcodeApp.PyErr.fileNotFoundError ∧
    ¬ ∃ r : XcodeApp.RunResult, XcodeApp.run none = Except.ok r := by
  refine ⟨rfl, ?_⟩
  rintro ⟨r, hr⟩
  exact Except.noConfusion hr

/-- C5, amended: every defined path of the shared-scripts classifier exits 0,
and with `log` absent it prints the diagnostic, decides nothing and leaves the
flag file untouched; the xcode-build-app variant exits 0 whenever the `log`
listing exists but raises an uncaught `FileNotFoundError` when it is absent. -/
theorem c5_amended_exit_codes (d : Option (List Shared.DirEntry)) (p : Option Str)
    (c : Str) (entries : List (Str × Str)) :
    (Shared.run d).exitCode = 0 ∧
    (Shared.run none).printedMissingDiag = true ∧
    (Shared.run none).decision = Decision.noAction ∧
    decision_flag (Shared.run none).decision p c = c ∧
    XcodeApp.run (some entries) = Except.ok ⟨0, XcodeApp.scan_files entries⟩ ∧
    XcodeApp.run none = Except.error XcodeApp.PyErr.fileNotFoundError := by
  refine ⟨?_, rfl, rfl, rfl, rfl, rfl⟩
  cases d <;> rfl

/-! ### Claim C9 -/

/-- C9: `set_retry_build` always ends the process with exit code 0; with
`GITHUB_ENV` unset or empty the write step is a no-op; the flag file gains
exactly the appended text `RETRY_BUILD=true` precisely when a
remediation/retry decision was made and the path is configured, and a
no-match run leaves the file untouched. -/
theorem c9_retry_flag_semantics (d : Decision) (p : Option Str) (c : Str) (path : Str) :
    (set_retry_build p c).2 = 0 ∧
    set_retry_build none c = (c, 0) ∧
    set_retry_build (some path) c =
      (if path.isEmpty then c else c ++ ("RETRY_BUILD=true").data, 0) ∧
    decision_flag d p c =
      (if d.isRemediate && env_configured p then c ++ ("RETRY_BUILD=true").data else c) ∧
    decision_flag Decision.noAction p c = c := by
  refine ⟨?_, rfl, ?_, ?_, rfl⟩
  · cases p with
    | none => rfl
    | some q => by_cases hq : q.isEmpty <;> simp [set_retry_build, hq]
  · by_cases hq : path.isEmpty <;> simp [set_retry_build, hq]
  · cases d with
    | noAction => simp [decision_flag, Decision.isRemediate]
    | remediate t s =>
      cases p with
      | none => simp [decision_flag, set_retry_build, Decision.isRemediate, env_configured]
      | some q =>
        by_cases hq : q.isEmpty <;>
          simp [decision_flag, set_retry_build, Decision.isRemediate, env_configured, hq]

/-! ### Claim C6 -/

/-- C6: `truncate_message` returns any message of length at most 500
unchanged; a longer message becomes exactly 500 characters, the first 497 of
which are the first 497 characters of the input and the last 3 the dots
marker. -/
theorem c6_truncate_message_spec (message : Str) :
    (message.length ≤ 500 → STF.truncate_message message = message) ∧
    (500 < message.length →
      (STF.truncate_message message).length = 500 ∧
      (STF.truncate_message message).take 497 = message.take 497 ∧
      (STF.truncate_message message).drop 497 = ('.' :: '.' :: '.' :: [])) := by
  constructor
  · intro h
    simp [STF.truncate_message, STF.MAX_MESSAGE_LENGTH, h]
  · intro h
    have hnot : ¬ message.length ≤ STF.MAX_MESSAGE_LENGTH := by
      simp only [STF.MAX_MESSAGE_LENGTH]
      omega
    have h497 : STF.MAX_MESSAGE_LENGTH - 3 = 497 := rfl
    have htake : (message.take 497).length = 497 := by
      rw [List.length_take]
      omega
    rw [STF.truncate_message, if_neg hnot, h497]
    refine ⟨?_, ?_, ?_⟩
    · rw [List.length_append, htake]
      rfl
    · rw [List.take_append_of_le_length (by rw [htake]), List.take_take]
      rfl
    · rw [List.drop_append_of_le_length (by rw [htake])]
      have hdrop : (message.take 497).drop 497 = [] := by
        apply List.drop_eq_nil_of_le
        rw [htake]
      rw [hdrop, List.nil_append]

/-- Witness of C6 at a message of length 501. -/
theorem c6_truncate_message_spec_witness :
    500 < (List.replicate 501 'a').length ∧
    ((STF.truncate_message (List.replicate 501 'a')).length = 500 ∧
     (STF.truncate_message (List.replicate 501 'a')).take 497 =
        (List.replicate 501 'a').take 497 ∧
     (STF.truncate_message (List.replicate 501 'a')).drop 497 =
        ('.' :: '.' :: '.' :: [])) :=
  ⟨by rw [List.length_replicate]; omega,
   (c6_truncate_message_spec (List.replicate 501 'a')).2
     (by rw [List.length_replicate]; omega)⟩

/-! ### Claim C7 -/

theorem py_replace_append (a b : Str) (pat : Char) (repl : Str) :
    STF.py_replace (a ++ b) pat repl =
      STF.py_replace a pat repl ++ STF.py_replace b pat repl := by
  simp [STF.py_replace]

theorem escape_message_append (a b : Str) :
    STF.escape_message (a ++ b) = STF.escape_message a ++ STF.escape_message b := by
  simp [STF.escape_message, py_replace_append]

theorem escape_message_single (c : Char) :
    STF.escape_message [c] = STF.esc_char c := by
  by_cases h1 : c = '%'
  · subst h1; rfl
  · by_cases h2 : c = '\r'
    · subst h2; rfl
    · by_cases h3 : c = '\n'
      · subst h3; rfl
      · simp [STF.escape_message, STF.py_replace, STF.esc_char, h1, h2, h3]

theorem escape_message_eq_flatMap (s : Str) :
    STF.escape_message s = s.flatMap STF.esc_char := by
  induction s with
  | nil => rfl
  | cons c cs ih =>
    calc STF.escape_message (c :: cs)
        = STF.escape_message ([c] ++ cs) := rfl
      _ = STF.escape_message [c] ++ STF.escape_message cs := escape_message_append [c] cs
      _ = STF.esc_char c ++ cs.flatMap STF.esc_char := by rw [escape_message_single, ih]
      _ = (c :: cs).flatMap STF.esc_char := (List.flatMap_cons c cs STF.esc_char).symm

/-- C7: the replacements are applied in the order `%`→`%25`, then CR→`%0D`,
then LF→`%0A`, so each character of the original message is escaped
independently and exactly once — the `%` introduced by `%0D`/`%0A` is never
re-escaped — and the printed line has the form
`::error title=<joined path>::<device-prefixed, escaped message>`. -/
theorem c7_escape_order_no_double_escape (s : Str) (f : STF.Failure) :
    STF.escape_message s = s.flatMap STF.esc_char ∧
    STF.gha_error_line f =
      ("::error title=").data ++ STF.format_test_identifier f.path ++
        (':' :: ':' :: []) ++
        (STF.device_prefixed_message f).flatMap STF.esc_char := by
  refine ⟨escape_message_eq_flatMap s, ?_⟩
  rw [STF.gha_error_line, escape_message_eq_flatMap]

/-! ### Claim C8 -/

/-- C8: for a Failure Message under Test Case `testFoo` under Test Suite
`SuiteA` under Unit test bundle `AppTests`, all under Device
`iPhone 15 (17.0)`, exactly one record is produced with path
`["AppTests", "SuiteA", "testFoo"]` and that device; the Device node (and an
interposed Configuration node, second conjunct) do not extend the path, while
the Device node sets the device context inherited by its descendants. -/
theorem c8_extract_failures_scenario :
    STF.extract_failures
        (.mk (("Device").data) (("iPhone 15 (17.0)").data) [] none
          [.mk (("Unit test bundle").data) (("AppTests").data) [] none
            [.mk (("Test Suite").data) (("SuiteA").data) [] none
              [.mk (("Test Case").data) (("testFoo").data) [] none
                [.mk (("Failure Message").data) (("XCTAssertTrue failed").data)
                  [] none []]]]])
        [] none =
      [⟨[("AppTests").data, ("SuiteA").data, ("testFoo").data],
        ("XCTAssertTrue failed").data, some (("iPhone 15 (17.0)").data)⟩] ∧
    STF.extract_failures
        (.mk (("Device").data) (("iPhone 15 (17.0)").data) [] none
          [.mk (("Configuration").data) (("Configuration 1").data) [] none
            [.mk (("Unit test bundle").data) (("AppTests").data) [] none
              [.mk (("Test Suite").data) (("SuiteA").data) [] none
                [.mk (("Test Case").data) (("testFoo").data) [] none
                  [.mk (("Failure Message").data) (("XCTAssertTrue failed").data)
                    [] none []]]]]])
        [] none =
      [⟨[("AppTests").data, ("SuiteA").data, ("testFoo").data],
        ("XCTAssertTrue failed").data, some (("iPhone 15 (17.0)").data)⟩] :=
  ⟨rfl, rfl⟩

/-! ### Claim C10 -/

theorem mem_here_path_ne_nil {P : Prop} [Decidable P] {q : List Str} {msg : Str}
    {dv : Option Str} {f : STF.Failure}
    (hf : f ∈ (if P ∧ q ≠ [] then [(⟨q, msg, dv⟩ : STF.Failure)] else [])) :
    f.path ≠ [] := by
  split at hf
  · rename_i hguard
    rw [List.mem_singleton] at hf
    subst hf
    exact hguard.2
  · exact absurd hf (List.not_mem_nil f)

theorem extract_failures_path_ne_nil_aux (k : Nat) :
    (∀ node : STF.TestNode, sizeOf node ≤ k → ∀ path dev f,
        f ∈ STF.extract_failures node path dev → f.path ≠ []) ∧
    (∀ nodes : List STF.TestNode, sizeOf nodes ≤ k → ∀ path dev f,
        f ∈ STF.extract_failures_list nodes path dev → f.path ≠ []) := by
  induction k with
  | zero =>
    constructor
    · rintro ⟨node_type, node_name, node_result, details, children⟩ hk
      rw [STF.TestNode.mk.sizeOf_spec] at hk
      omega
    · intro nodes hk
      cases nodes with
      | nil =>
        rw [List.nil.sizeOf_spec] at hk
        omega
      | cons n rest =>
        rw [List.cons.sizeOf_spec] at hk
        omega
  | succ k ih =>
    constructor
    · rintro ⟨node_type, node_name, node_result, details, children⟩ hk path dev f hf
      have hchildren : sizeOf children ≤ k := by
        rw [STF.TestNode.mk.sizeOf_spec] at hk
        omega
      rw [STF.extract_failures] at hf
      rcases List.mem_append.mp hf with hf | hf
      · exact mem_here_path_ne_nil hf
      · exact ih.2 children hchildren _ _ f hf
    · intro nodes hk path dev f hf
      cases nodes with
      | nil =>
        rw [STF.extract_failures_list] at hf
        exact absurd hf (List.not_mem_nil f)
      | cons n rest =>
        have hsz : sizeOf n ≤ k ∧ sizeOf rest ≤ k := by
          rw [List.cons.sizeOf_spec] at hk
          omega
        rw [STF.extract_failures_list] at hf
        rcases List.mem_append.mp hf with hf | hf
        · exact ih.1 n hsz.1 _ _ f hf
        · exact ih.2 rest hsz.2 _ _ f hf

/-- C10: every failure record produced by `extract_failures` has a non-empty
path — a Failure Message node outside any bundle/suite/case scope emits no
record, hence no error line and no summary entry, and the invariant holds
through the whole recursive walk. -/
theorem c10_failure_path_nonempty (node : STF.TestNode) (path : List Str)
    (dev : Option Str) (f : STF.Failure)
    (hf : f ∈ STF.extract_failures node path dev) : f.path ≠ [] :=
  (extract_failures_path_ne_nil_aux (sizeOf node)).1 node (le_refl _) path dev f hf

/-- Witness of C10: the sole record of a small tree is produced inside a
Test Case scope, and its path is non-empty. -/
theorem c10_failure_path_nonempty_witness :
    (⟨[("testBar").data], ("assertion raised").data, none⟩ : STF.Failure) ∈
      STF.extract_failures
        (.mk (("Test Case").data) (("testBar").data) [] none
          [.mk (("Failure Message").data) (("assertion raised").data) [] none []])
        [] none ∧
    (⟨[("testBar").data], ("assertion raised").data, none⟩ : STF.Failure).path ≠ [] := by
  have hmem :
      (⟨[("testBar").data], ("assertion raised").data, none⟩ : STF.Failure) ∈
        STF.extract_failures
          (.mk (("Test Case").data) (("testBar").data) [] none
            [.mk (("Failure Message").data) (("assertion raised").data) [] none []])
          [] none := by
    show (⟨[("testBar").data], ("assertion raised").data, none⟩ : STF.Failure) ∈
      [(⟨[("testBar").data], ("assertion raised").data, none⟩ : STF.Failure)]
    exact List.mem_singleton.mpr rfl
  exact ⟨hmem, c10_failure_path_nonempty _ _ _ _ hmem⟩
